import Mathlib

/-!
Verification development for the teaching notebooks of this repository.

The only algorithmic content is the synthetic structural-causal-model data
generator `sample_data` (causal-model notebook) and the evaluation harness
`eval_clf` (hard-drive-failure notebook).  Real numbers produced by the
Gaussian pseudorandom source are modelled exactly as rationals; the
Mersenne-Twister stream behind `np.random` is abstracted as a function
`Gauss` from (seed, stream position) to the drawn value, which is faithful
to the one property the notebooks rely on: after `np.random.seed(s)` the
sequence of draws is a fixed function of `s` alone.  The process-wide
`np.random` state is threaded explicitly as a value of type `NpState`.
-/

namespace MLExercises

/-- A table column: one rational value per row. -/
abbrev Vec := List ℚ

/-- A data frame: ordered named columns, as built by
`pd.DataFrame(np.vstack([...]).T, columns=[...])`. -/
abbrev DataFrame := List (String × Vec)

/-- The deterministic stream of standard-normal draws of the global numpy
generator: `g s i` is the `i`-th value drawn after `np.random.seed(s)`. -/
abbrev Gauss := Nat → Nat → ℚ

/-- The process-wide `np.random` state: the seed it was last seeded with and
the current position in the draw stream. -/
structure NpState where
  seed : Nat
  pos : Nat
deriving DecidableEq, Repr

/-- Model of `np.random.seed(s)`: reset the global stream to position 0 for
seed `s`. -/
def npSeed (s : Nat) : NpState :=
  ⟨s, 0⟩

/-- Model of `np.random.randn(n)` acting on the global state: raises
`ValueError` for negative `n`, otherwise returns the next `n` draws of the
seeded stream and advances the position. -/
def randn (g : Gauss) (st : NpState) (n : Int) : Except String (Vec × NpState) :=
  if n < 0 then
    Except.error "ValueError: negative dimensions are not allowed"
  else
    Except.ok ((List.range n.toNat).map fun i => g st.seed (st.pos + i),
      ⟨st.seed, st.pos + n.toNat⟩)

/-- Elementwise sum of two columns (numpy broadcasting of `+`). -/
def vadd (u v : Vec) : Vec :=
  List.zipWith (fun a b => a + b) u v

/-- Elementwise difference of two columns (numpy broadcasting of `-`). -/
def vsub (u v : Vec) : Vec :=
  List.zipWith (fun a b => a - b) u v

/-- Scalar multiple of a column (numpy broadcasting of `*`). -/
def smul (c : ℚ) (v : Vec) : Vec :=
  v.map fun a => c * a

/-- Shallow embedding of `sample_data(seed, n, data_drift, concept_drift)`
from the causal-model notebook.  `st0` is the incoming global `np.random`
state (the source reads and writes that process-wide state); the function
returns the data frame together with the outgoing global state. -/
def sample_data (g : Gauss) (st0 : NpState) (seed : Nat) (n : Int)
    (data_drift : Bool) (concept_drift : Bool) :
    Except String (DataFrame × NpState) := do
  let st := npSeed seed
  let (εC, st1) ← randn g st n
  let C := εC
  let (εA, st2) ← randn g st1 n
  let A := smul 0.8 εA
  let (εK, st3) ← randn g st2 n
  let K := vadd A (smul 0.1 εK)
  let (X, st4) ←
    if data_drift then do
      let (εX, st4) ← randn g st3 n
      pure (vadd (vsub C (smul 2 A)) (smul 2.0 εX), st4)
    else do
      let (εX, st4) ← randn g st3 n
      pure (vadd (vsub C (smul 2 A)) (smul 0.2 εX), st4)
  let (εF, st5) ← randn g st4 n
  let F := vadd (smul 3 X) (smul 0.8 εF)
  let (D, st6) ←
    if concept_drift then do
      let (εD, st6) ← randn g st5 n
      pure (vadd (smul 2 X) (smul 0.5 εD), st6)
    else do
      let (εD, st6) ← randn g st5 n
      pure (vadd (smul (-2) X) (smul 0.5 εD), st6)
  let (εG, st7) ← randn g st6 n
  let G := vadd D (smul 0.5 εG)
  let (εY, st8) ← randn g st7 n
  let Y := vadd (vsub (smul 2 K) D) (smul 0.2 εY)
  let (H, st9) ←
    if data_drift then do
      let (εH, st9) ← randn g st8 n
      pure (vadd (smul 0.5 Y) (smul 1.0 εH), st9)
    else do
      let (εH, st9) ← randn g st8 n
      pure (vadd (smul 0.5 Y) (smul 0.1 εH), st9)
  pure ([("C", C), ("A", A), ("K", K), ("X", X), ("F", F),
         ("D", D), ("G", G), ("Y", Y), ("H", H)], st9)

/-! Closed forms for the nine generated columns.  Block `j` of the seeded
stream (positions `j*n` to `j*n + n - 1`) is the fresh noise vector of the
`j`-th generating equation. -/

/-- The `j`-th block of `n` consecutive draws of the stream seeded with `s`. -/
def block (g : Gauss) (s n j : Nat) : Vec :=
  (List.range n).map fun i => g s (j * n + i)

/-- Noise scale of the equation for `X`: `2.0` under data drift, `0.2`
without. -/
def xScale (data_drift : Bool) : ℚ :=
  if data_drift then 2 else 0.2

/-- Coefficient of `X` in the equation for `D`: `+2` under concept drift,
`-2` without. -/
def dCoef (concept_drift : Bool) : ℚ :=
  if concept_drift then 2 else -2

/-- Noise scale of the equation for `H`: `1.0` under data drift, `0.1`
without. -/
def hScale (data_drift : Bool) : ℚ :=
  if data_drift then 1 else 0.1

/-- Closed form of column `C`. -/
def colC (g : Gauss) (s n : Nat) : Vec :=
  block g s n 0

/-- Closed form of column `A`. -/
def colA (g : Gauss) (s n : Nat) : Vec :=
  smul 0.8 (block g s n 1)

/-- Closed form of column `K`. -/
def colK (g : Gauss) (s n : Nat) : Vec :=
  vadd (colA g s n) (smul 0.1 (block g s n 2))

/-- Closed form of column `X`. -/
def colX (g : Gauss) (s n : Nat) (data_drift : Bool) : Vec :=
  vadd (vsub (colC g s n) (smul 2 (colA g s n))) (smul (xScale data_drift) (block g s n 3))

/-- Closed form of column `F`. -/
def colF (g : Gauss) (s n : Nat) (data_drift : Bool) : Vec :=
  vadd (smul 3 (colX g s n data_drift)) (smul 0.8 (block g s n 4))

/-- Closed form of column `D`. -/
def colD (g : Gauss) (s n : Nat) (data_drift concept_drift : Bool) : Vec :=
  vadd (smul (dCoef concept_drift) (colX g s n data_drift)) (smul 0.5 (block g s n 5))

/-- Closed form of column `G`. -/
def colG (g : Gauss) (s n : Nat) (data_drift concept_drift : Bool) : Vec :=
  vadd (colD g s n data_drift concept_drift) (smul 0.5 (block g s n 6))

/-- Closed form of column `Y`. -/
def colY (g : Gauss) (s n : Nat) (data_drift concept_drift : Bool) : Vec :=
  vadd (vsub (smul 2 (colK g s n)) (colD g s n data_drift concept_drift))
    (smul 0.2 (block g s n 7))

/-- Closed form of column `H`. -/
def colH (g : Gauss) (s n : Nat) (data_drift concept_drift : Bool) : Vec :=
  vadd (smul 0.5 (colY g s n data_drift concept_drift))
    (smul (hScale data_drift) (block g s n 8))

/-- The data frame `sample_data` returns, in closed form. -/
def sampleDf (g : Gauss) (s n : Nat) (dd cd : Bool) : DataFrame :=
  [("C", colC g s n), ("A", colA g s n), ("K", colK g s n), ("X", colX g s n dd),
   ("F", colF g s n dd), ("D", colD g s n dd cd), ("G", colG g s n dd cd),
   ("Y", colY g s n dd cd), ("H", colH g s n dd cd)]

theorem except_bind_ok {α β ε : Type} (a : α) (f : α → Except ε β) :
    (Except.ok a >>= f : Except ε β) = f a := rfl

theorem except_pure {α ε : Type} (a : α) : (pure a : Except ε α) = Except.ok a := rfl

theorem randn_natCast (g : Gauss) (st : NpState) (n : Nat) :
    randn g st (n : Int) =
      Except.ok ((List.range n).map fun i => g st.seed (st.pos + i),
        ⟨st.seed, st.pos + n⟩) := by
  rw [randn, if_neg (by omega)]
  simp

/-- Central decomposition: for a nonnegative row count, `sample_data` succeeds
and returns the closed-form columns, and leaves the global state at position
`9 * n` under the given seed, whatever the incoming global state was. -/
theorem sample_data_eq (g : Gauss) (st0 : NpState) (s : Nat) (n : Nat)
    (dd cd : Bool) :
    sample_data g st0 s (n : Int) dd cd =
      Except.ok (sampleDf g s n dd cd, ⟨s, 9 * n⟩) := by
  cases dd <;> cases cd <;>
    · simp only [sample_data, npSeed, randn_natCast, except_bind_ok, except_pure,
        Bool.false_eq_true, if_true, if_false, sampleDf, colC, colA, colK, colX, colF,
        colD, colG, colY, colH, block, xScale, dCoef, hScale]
      norm_num
      constructor
      · ring_nf
        simp
      · omega

/-! An SCM equation takes the list of columns already generated (its
causal ancestors are looked up there by position) and its own fresh noise
block, and yields the new column.  The builder `scmBuild` hands equation
`j` only the first `j` columns and noise block `j`, so a forward reference
is impossible by construction. -/

/-- A structural generating equation: previously generated columns and a
fresh noise vector in, new column out. -/
abbrev ScmEqn := List Vec → Vec → Vec

/-- The nine generating equations of `sample_data`, in generation order
C, A, K, X, F, D, G, Y, H.  Ancestors are looked up by position in the
list of already generated columns (C = 0, A = 1, K = 2, X = 3, F = 4,
D = 5, G = 6, Y = 7). -/
def scmEqs (dd cd : Bool) : List ScmEqn :=
  [fun _ ε => ε,
   fun _ ε => smul 0.8 ε,
   fun done ε => vadd (done.getD 1 []) (smul 0.1 ε),
   fun done ε => vadd (vsub (done.getD 0 []) (smul 2 (done.getD 1 [])))
     (smul (xScale dd) ε),
   fun done ε => vadd (smul 3 (done.getD 3 [])) (smul 0.8 ε),
   fun done ε => vadd (smul (dCoef cd) (done.getD 3 [])) (smul 0.5 ε),
   fun done ε => vadd (done.getD 5 []) (smul 0.5 ε),
   fun done ε => vadd (vsub (smul 2 (done.getD 2 [])) (done.getD 5 []))
     (smul 0.2 ε),
   fun done ε => vadd (smul 0.5 (done.getD 7 [])) (smul (hScale dd) ε)]

/-- Generate columns sequentially: equation `j` receives only the already
generated columns and the `j`-th disjoint noise block of the seeded
stream. -/
def scmBuild (g : Gauss) (s n : Nat) (eqs : List ScmEqn) : List Vec :=
  eqs.foldl (fun done e => done ++ [e done (block g s n done.length)]) []

/-! Embedding of the evaluation harness `eval_clf` of the hard-drive-failure
notebook, together with the sklearn collaborators it calls.  A trained
classifier is its per-row prediction function plus its (unused by the
harness) fitting capability. -/

/-- A trained sklearn classifier, reduced to the capability set the
notebooks use: `predictRow` backs `predict` and `score`, `fitFn` is the
`fit` capability (it returns the newly fitted predictor). -/
structure Classifier (F L : Type) where
  predictRow : F → L
  fitFn : List F → List L → F → L

/-- Model of `clf.predict(X)`: one predicted label per row of `X`. -/
def predict {F L : Type} (clf : Classifier F L) (X : List F) : List L :=
  X.map clf.predictRow

/-- Model of sklearn's `check_consistent_length`: raises `ValueError` when
the two inputs have different numbers of rows. -/
def check_consistent_length {α β : Type} (a : List α) (b : List β) :
    Except String Unit :=
  if a.length = b.length then Except.ok ()
  else Except.error "ValueError: Found input variables with inconsistent numbers of samples"

/-- Model of sklearn's `accuracy_score(y_true, y_pred)`: fraction of
positions where prediction and truth agree, after the length check. -/
def accuracy_score {L : Type} [DecidableEq L] (y_true y_pred : List L) :
    Except String ℚ := do
  check_consistent_length y_true y_pred
  pure (((y_true.zip y_pred).countP fun p => p.1 = p.2 : ℕ) / (y_true.length : ℚ))

/-- Recall of class `c`: fraction of the rows with true label `c` that are
predicted `c`. -/
def classRecall {L : Type} [DecidableEq L] (y_true y_pred : List L) (c : L) : ℚ :=
  (((y_true.zip y_pred).countP fun p => p.1 = c ∧ p.2 = c : ℕ) : ℚ) /
    ((y_true.countP fun a => a = c : ℕ) : ℚ)

/-- Model of sklearn's `balanced_accuracy_score(y_true, y_pred)`: unweighted
mean over the classes occurring in `y_true` of the per-class recall, after
the length check. -/
def balanced_accuracy_score {L : Type} [DecidableEq L] (y_true y_pred : List L) :
    Except String ℚ := do
  check_consistent_length y_true y_pred
  let classes := y_true.dedup
  pure ((classes.map fun c => classRecall y_true y_pred c).sum / (classes.length : ℚ))

/-- Model of `clf.score(X, y)` for an sklearn classifier: mean accuracy of
`predict(X)` against `y`. -/
def score {F L : Type} [DecidableEq L] (clf : Classifier F L) (X : List F)
    (y : List L) : Except String ℚ :=
  accuracy_score y (predict clf X)

/-- The four numbers `eval_clf` prints, in print order. -/
structure MetricsReport where
  accTrain : ℚ
  accTest : ℚ
  balTrain : ℚ
  balTest : ℚ
deriving DecidableEq, Repr

/-- Shallow embedding of `eval_clf(clf, X_train, y_train, X_test, y_test)`:
computes, in the source's print order, train accuracy, test accuracy, train
balanced accuracy and test balanced accuracy of the already-trained
classifier, and reports them.  A `ValueError` raised by a collaborator
propagates to the caller. -/
def eval_clf {F L : Type} [DecidableEq L] (clf : Classifier F L)
    (X_train : List F) (y_train : List L) (X_test : List F) (y_test : List L) :
    Except String MetricsReport := do
  let accTrain ← score clf X_train y_train
  let accTest ← score clf X_test y_test
  let balTrain ← balanced_accuracy_score y_train (predict clf X_train)
  let balTest ← balanced_accuracy_score y_test (predict clf X_test)
  pure ⟨accTrain, accTest, balTrain, balTest⟩

/-- The operations of the model capability set `{fit, predict, score}`. -/
inductive ModelOp where
  | fitOp
  | predictOp
  | scoreOp
deriving DecidableEq, Repr

/-- The sequence of model-API calls `eval_clf` performs on the classifier,
in source order: `clf.score` on the train split, `clf.score` on the test
split, `clf.predict` on the train split, `clf.predict` on the test split. -/
def eval_clf_modelOps : List ModelOp :=
  [ModelOp.scoreOp, ModelOp.scoreOp, ModelOp.predictOp, ModelOp.predictOp]

theorem except_bind_error {α β ε : Type} (e : ε) (f : α → Except ε β) :
    (Except.error e >>= f : Except ε β) = Except.error e := rfl

theorem block_length (g : Gauss) (s n j : Nat) : (block g s n j).length = n := by
  simp [block]

theorem smul_length (c : ℚ) (v : Vec) : (smul c v).length = v.length := by
  simp [smul]

theorem vadd_length (u v : Vec) : (vadd u v).length = min u.length v.length := by
  simp [vadd]

theorem vsub_length (u v : Vec) : (vsub u v).length = min u.length v.length := by
  simp [vsub]

theorem colC_length (g : Gauss) (s n : Nat) : (colC g s n).length = n := by
  simp [colC, block_length]

theorem colA_length (g : Gauss) (s n : Nat) : (colA g s n).length = n := by
  simp [colA, smul_length, block_length]

theorem colK_length (g : Gauss) (s n : Nat) : (colK g s n).length = n := by
  simp [colK, vadd_length, smul_length, block_length, colA_length]

theorem colX_length (g : Gauss) (s n : Nat) (dd : Bool) :
    (colX g s n dd).length = n := by
  simp [colX, vadd_length, vsub_length, smul_length, block_length, colA_length, colC_length]

theorem colF_length (g : Gauss) (s n : Nat) (dd : Bool) :
    (colF g s n dd).length = n := by
  simp [colF, vadd_length, smul_length, block_length, colX_length]

theorem colD_length (g : Gauss) (s n : Nat) (dd cd : Bool) :
    (colD g s n dd cd).length = n := by
  simp [colD, vadd_length, smul_length, block_length, colX_length]

theorem colG_length (g : Gauss) (s n : Nat) (dd cd : Bool) :
    (colG g s n dd cd).length = n := by
  simp [colG, vadd_length, smul_length, block_length, colD_length]

theorem colY_length (g : Gauss) (s n : Nat) (dd cd : Bool) :
    (colY g s n dd cd).length = n := by
  simp [colY, vadd_length, vsub_length, smul_length, block_length, colK_length, colD_length]

theorem colH_length (g : Gauss) (s n : Nat) (dd cd : Bool) :
    (colH g s n dd cd).length = n := by
  simp [colH, vadd_length, smul_length, block_length, colY_length]

/-- C1: for every seed `s`, row count `n` and drift flags, two calls to
`sample_data` with the same arguments return identical (bit-identical)
results: the result does not depend on the incoming global `np.random`
state (the function reseeds first), so in particular two successive calls
with the same arguments agree. -/
theorem sample_data_deterministic (g : Gauss) (st st' : NpState) (s : Nat)
    (n : Int) (dd cd : Bool) :
    sample_data g st s n dd cd = sample_data g st' s n dd cd := rfl

/-- C2: for every positive row count `n` (and any seed and drift flags),
`sample_data` returns a table whose column names are exactly
C, A, K, X, F, D, G, Y, H in that order and each of whose nine columns has
exactly `n` entries (every entry an exact rational, so no missing values). -/
theorem sample_data_shape (g : Gauss) (st : NpState) (s n : Nat)
    (dd cd : Bool) (h : 0 < n) :
    (sample_data g st s (n : Int) dd cd).map
        (fun r => (r.1.map Prod.fst, r.1.map fun pr => pr.2.length)) =
      Except.ok (["C", "A", "K", "X", "F", "D", "G", "Y", "H"],
        [n, n, n, n, n, n, n, n, n]) := by
  rw [sample_data_eq]
  simp [sampleDf, Except.map, colC_length, colA_length, colK_length, colX_length,
    colF_length, colD_length, colG_length, colY_length, colH_length]

theorem sample_data_shape_witness :
    0 < 2 ∧
      (sample_data (fun _ _ => 0) ⟨0, 0⟩ 5 ((2 : Nat) : Int) false false).map
          (fun r => (r.1.map Prod.fst, r.1.map fun pr => pr.2.length)) =
        Except.ok (["C", "A", "K", "X", "F", "D", "G", "Y", "H"],
          [2, 2, 2, 2, 2, 2, 2, 2, 2]) :=
  ⟨by decide, sample_data_shape (fun _ _ => 0) ⟨0, 0⟩ 5 2 false false (by decide)⟩

/-- C5: the nine columns of `sample_data` are exactly what the sequential
SCM builder produces from the nine generating equations: each equation is
handed only the columns generated before it (causal order C, A, K, X, F, D,
G, Y, H, no forward reference possible) plus its own fresh block of the
seeded noise stream. -/
theorem sample_data_scm_refinement (g : Gauss) (st : NpState) (s n : Nat)
    (dd cd : Bool) :
    (sample_data g st s (n : Int) dd cd).map (fun r => r.1.map Prod.snd) =
      Except.ok (scmBuild g s n (scmEqs dd cd)) := by
  rw [sample_data_eq]
  rfl

/-- C6 counterexample: `n = 0` is not positive, yet `sample_data` does not
fail: it returns an empty nine-column table (the underlying `randn(0)`
succeeds with an empty draw). -/
theorem sample_data_zero_not_error :
    (0 : Int) ≤ 0 ∧
      sample_data (fun _ _ => 0) ⟨3, 4⟩ 0 0 false false =
        Except.ok ([("C", []), ("A", []), ("K", []), ("X", []), ("F", []),
          ("D", []), ("G", []), ("Y", []), ("H", [])], ⟨0, 0⟩) :=
  ⟨le_refl 0, rfl⟩

/-- C6 (amended): for every strictly negative row count `n`, `sample_data`
fails with the invalid-argument condition (`ValueError`) raised by the
first `randn` call; for `n = 0` it instead returns an empty table. -/
theorem sample_data_negative_error (g : Gauss) (st : NpState) (s : Nat)
    (n : Int) (dd cd : Bool) (h : n < 0) :
    sample_data g st s n dd cd =
      Except.error "ValueError: negative dimensions are not allowed" := by
  cases dd <;> cases cd <;>
    simp [sample_data, randn, h, npSeed, except_bind_error]

theorem sample_data_negative_error_witness :
    (-1 : Int) < 0 ∧
      sample_data (fun _ _ => 0) ⟨0, 0⟩ 0 (-1) false false =
        Except.error "ValueError: negative dimensions are not allowed" :=
  ⟨by decide, sample_data_negative_error (fun _ _ => 0) ⟨0, 0⟩ 0 (-1) false false
    (by decide)⟩

/-- C7 counterexample: calling `sample_data` does leave an observable effect
on the global `np.random` state: starting from global state `⟨7, 5⟩`, a call
with seed 1 and one row leaves the global state at `⟨1, 9⟩ ≠ ⟨7, 5⟩`. -/
theorem sample_data_mutates_global_state :
    (sample_data (fun _ _ => 0) ⟨7, 5⟩ 1 ((1 : Nat) : Int) false false).map
        Prod.snd ≠ Except.ok (⟨7, 5⟩ : NpState) := by
  rw [sample_data_eq]
  simp [Except.map]

/-- C7 (amended): the generator's result — returned table and outgoing
global RNG state alike — depends only on its arguments, never on the
incoming global state (each invocation is independent given its seed), but
`sample_data` does write the shared global RNG state: it always leaves it
reseeded at `⟨seed, 9 * n⟩`. -/
theorem sample_data_independent_of_global_state (g : Gauss)
    (st st' : NpState) (s n : Nat) (dd cd : Bool) :
    sample_data g st s (n : Int) dd cd = sample_data g st' s (n : Int) dd cd ∧
      (sample_data g st s (n : Int) dd cd).map Prod.snd =
        Except.ok (⟨s, 9 * n⟩ : NpState) := by
  refine ⟨rfl, ?_⟩
  rw [sample_data_eq]
  rfl

/-- C10: the columns C, A and K (names and values) returned by
`sample_data` are identical for any combination of the two drift flags with
the same seed and row count: both drift branches come after these three
columns are drawn and consume the same number of draws before them. -/
theorem sample_data_CAK_flag_independent (g : Gauss) (st st' : NpState)
    (s n : Nat) (dd cd dd' cd' : Bool) :
    (sample_data g st s (n : Int) dd cd).map (fun r => r.1.take 3) =
      (sample_data g st' s (n : Int) dd' cd').map (fun r => r.1.take 3) := by
  rw [sample_data_eq, sample_data_eq]
  rfl

/-- C3: with `data_drift` true, exactly the generating equations of X
(index 3) and H (index 8) change, and each changes only its noise scale,
to ten times the non-drifted scale (X: 0.2 to 2.0, H: 0.1 to 1.0); each of
the other seven generating equations is unchanged. -/
theorem data_drift_noise_scale (cd : Bool) :
    xScale true = 10 * xScale false ∧
    hScale true = 10 * hScale false ∧
    (∀ j, j < 9 → j ≠ 3 → j ≠ 8 →
      (scmEqs true cd).getD j (fun _ _ => []) =
        (scmEqs false cd).getD j (fun _ _ => [])) ∧
    (∀ done ε, (scmEqs true cd).getD 3 (fun _ _ => []) done ε =
      vadd (vsub (done.getD 0 []) (smul 2 (done.getD 1 [])))
        (smul (10 * xScale false) ε)) ∧
    (∀ done ε, (scmEqs false cd).getD 3 (fun _ _ => []) done ε =
      vadd (vsub (done.getD 0 []) (smul 2 (done.getD 1 [])))
        (smul (xScale false) ε)) ∧
    (∀ done ε, (scmEqs true cd).getD 8 (fun _ _ => []) done ε =
      vadd (smul 0.5 (done.getD 7 [])) (smul (10 * hScale false) ε)) ∧
    (∀ done ε, (scmEqs false cd).getD 8 (fun _ _ => []) done ε =
      vadd (smul 0.5 (done.getD 7 [])) (smul (hScale false) ε)) ∧
    (scmEqs true cd).getD 3 (fun _ _ => []) ≠
      (scmEqs false cd).getD 3 (fun _ _ => []) ∧
    (scmEqs true cd).getD 8 (fun _ _ => []) ≠
      (scmEqs false cd).getD 8 (fun _ _ => []) := by
  refine ⟨by norm_num [xScale], by norm_num [hScale], ?_, ?_, ?_, ?_, ?_, ?_, ?_⟩
  · intro j h9 h3 h8
    interval_cases j <;> first | rfl | omega
  · intro done ε
    have hs : (10 : ℚ) * xScale false = xScale true := by norm_num [xScale]
    rw [hs]
    rfl
  · intro done ε
    rfl
  · intro done ε
    have hs : (10 : ℚ) * hScale false = hScale true := by norm_num [hScale]
    rw [hs]
    rfl
  · intro done ε
    rfl
  · intro h
    have h3 := congrFun (congrFun h [[(0 : ℚ)], [0], [0], [0], [0], [0], [0], [0]]) [1]
    simp [scmEqs, xScale, vadd, vsub, smul] at h3
    norm_num at h3
  · intro h
    have h8 := congrFun (congrFun h [[(0 : ℚ)], [0], [0], [0], [0], [0], [0], [0]]) [1]
    simp [scmEqs, hScale, vadd, smul] at h8
    norm_num at h8

/-- C4: with `concept_drift` true, exactly the generating equation of D
(index 5) changes, and it changes only the sign of its dominant coefficient
(the coefficient of X goes from -2 to +2) while keeping its 0.5 noise
scale; each of the other eight generating equations is unchanged. -/
theorem concept_drift_sign_flip (dd : Bool) :
    dCoef true = -(dCoef false) ∧
    (∀ j, j < 9 → j ≠ 5 →
      (scmEqs dd true).getD j (fun _ _ => []) =
        (scmEqs dd false).getD j (fun _ _ => [])) ∧
    (∀ done ε, (scmEqs dd true).getD 5 (fun _ _ => []) done ε =
      vadd (smul (-(dCoef false)) (done.getD 3 [])) (smul 0.5 ε)) ∧
    (∀ done ε, (scmEqs dd false).getD 5 (fun _ _ => []) done ε =
      vadd (smul (dCoef false) (done.getD 3 [])) (smul 0.5 ε)) ∧
    (scmEqs dd true).getD 5 (fun _ _ => []) ≠
      (scmEqs dd false).getD 5 (fun _ _ => []) := by
  refine ⟨by norm_num [dCoef], ?_, ?_, ?_, ?_⟩
  · intro j h9 h5
    interval_cases j <;> first | rfl | omega
  · intro done ε
    have hs : -(dCoef false) = dCoef true := by norm_num [dCoef]
    rw [hs]
    rfl
  · intro done ε
    rfl
  · intro h
    have h5 := congrFun (congrFun h [[(0 : ℚ)], [0], [0], [1]]) [0]
    simp [scmEqs, dCoef, vadd, smul] at h5
    norm_num at h5

/-- C8: the evaluation harness never invokes the model's `fit` capability
and reads nothing of the classifier beyond its prediction function: its
result is invariant under replacing the `fit` component, and `fit` does not
occur in the sequence of model-API calls it performs (only `score` and
`predict`); all inputs are consumed read-only (the harness returns a fresh
report and nothing else). -/
theorem eval_clf_no_fit :
    (∀ (F L : Type) [DecidableEq L] (p : F → L)
      (f1 f2 : List F → List L → F → L) (X_train : List F) (y_train : List L)
      (X_test : List F) (y_test : List L),
      eval_clf ⟨p, f1⟩ X_train y_train X_test y_test =
        eval_clf ⟨p, f2⟩ X_train y_train X_test y_test) ∧
    ModelOp.fitOp ∉ eval_clf_modelOps := by
  constructor
  · intro F L _ p f1 f2 X_train y_train X_test y_test
    rfl
  · decide

/-- C9: whenever a feature table and its label array disagree on row count
(on the train split or on the test split), the harness fails with the
shape-mismatch `ValueError` of the library length check — it returns no
report, so nothing is silently truncated. -/
theorem eval_clf_shape_mismatch {F L : Type} [DecidableEq L]
    (clf : Classifier F L) (X_train : List F) (y_train : List L)
    (X_test : List F) (y_test : List L)
    (h : X_train.length ≠ y_train.length ∨ X_test.length ≠ y_test.length) :
    eval_clf clf X_train y_train X_test y_test =
      Except.error
        "ValueError: Found input variables with inconsistent numbers of samples" := by
  by_cases h1 : y_train.length = X_train.length
  · have h2 : ¬ y_test.length = X_test.length := by
      rcases h with h | h
      · exact absurd h1.symm h
      · exact fun hc => h hc.symm
    simp [eval_clf, score, accuracy_score, check_consistent_length, predict,
      List.length_map, h1, h2, except_bind_ok, except_bind_error, except_pure]
  · simp [eval_clf, score, accuracy_score, check_consistent_length, predict,
      List.length_map, h1, except_bind_ok, except_bind_error, except_pure]

theorem eval_clf_shape_mismatch_witness :
    (([(0 : ℚ)].length ≠ ([] : List Bool).length) ∨
      (([] : List ℚ).length ≠ ([] : List Bool).length)) ∧
    eval_clf (⟨fun _ => true, fun _ _ _ => true⟩ : Classifier ℚ Bool)
        [0] [] [] [] =
      Except.error
        "ValueError: Found input variables with inconsistent numbers of samples" :=
  ⟨Or.inl (by decide),
    eval_clf_shape_mismatch ⟨fun _ => true, fun _ _ _ => true⟩ [0] [] [] []
      (Or.inl (by decide))⟩

end MLExercises
